import Mathlib

/-!
Verification of the BlusMotif/SOS emergency-dispatch application.

The development shallowly embeds the server storage layer
(`server/storage.ts` MemStorage and the Firebase-backed storage class),
the Express route handlers (`server/routes.ts`), the zod request schemas
(`shared/schema.ts`), the WebSocket chat handler, and the client consoles
(`SimpleAuthLogin`, `DispatcherConsole`, `ServiceDashboard`).

JS/Firebase records that routes mutate with arbitrary keys are modelled as
JSON objects (association lists); typed TypeScript interfaces whose fields
are fixed are modelled as Lean structures.  Timestamps (`Date.now()`,
`new Date()`) are modelled as `Nat` values passed in explicitly; generated
ids (`randomUUID`, Firebase push keys) are explicit `String` parameters.
-/

namespace SOS

/-- JSON values, the runtime shape of Express request/response bodies and
Firebase Realtime Database records.  Numbers are modelled as integers:
the code never computes with them, it only checks the type tag. -/
inductive Json where
  | null : Json
  | bool (b : Bool) : Json
  | num (n : Int) : Json
  | str (s : String) : Json
  | arr (elems : List Json) : Json
  | obj (fields : List (String × Json)) : Json
deriving Repr, BEq

/-- A JSON object body: a list of key/value pairs. -/
abbrev JObj := List (String × Json)

/-- Look a key up in an association list (first match wins, as in a JS
object where keys are unique). -/
def assocGet {α : Type} (l : List (String × α)) (k : String) : Option α :=
  (l.find? (fun kv => kv.1 == k)).map (fun kv => kv.2)

/-- Replace the value stored at key `k` (used for `Map.set` on a present
key and for Firebase child updates). -/
def assocReplace {α : Type} (l : List (String × α)) (k : String) (v : α) :
    List (String × α) :=
  l.map (fun kv => if kv.1 == k then (kv.1, v) else kv)

/-- Merge of JS object spreads / Firebase `update()`: keys of `u` override
keys of `o`, all other keys of `o` survive. -/
def objMerge (o u : JObj) : JObj :=
  u ++ o.filter (fun kv => (assocGet u kv.1).isNone)

/-- JavaScript truthiness of an optional JSON value (`undefined`, `null`,
`""`, `0` and `false` are falsy). -/
def jsTruthy : Option Json → Bool
  | none => false
  | some Json.null => false
  | some (Json.bool b) => b
  | some (Json.num n) => n != 0
  | some (Json.str s) => s != ""
  | some (Json.arr _) => true
  | some (Json.obj _) => true

/-- Embeds `shared/schema.ts` `Location`: latitude/longitude numbers, a string
address and an optional Ghana Post GPS code. -/
structure Location where
  latitude : Int
  longitude : Int
  address : String
  ghanaPostGPS : Option String
deriving Repr, BEq, DecidableEq

/-- The payload accepted by `POST /api/incidents`:
`insertIncidentSchema.extend({ reporterId: z.string().optional() })`
after a successful zod parse (defaults already applied). -/
structure InsertIncidentData where
  serviceId : String
  type : String
  category : String
  priority : String
  title : String
  description : Option String
  location : Location
  serviceNumber : String
  isSilent : Bool
  isOffline : Bool
  reporterId : Option String
deriving Repr, BEq, DecidableEq

/-- Embeds `shared/schema.ts` `ChatMessage` as stored by the Firebase storage
class.  `channelType` is optional because the WebSocket path builds the
record without it, while the zod-parsed HTTP path always supplies it. -/
structure ChatMessage where
  id : String
  incidentId : Option String
  serviceId : Option String
  channelType : Option String
  senderId : String
  message : String
  messageType : String
  isRead : Bool
  createdAt : Nat
deriving Repr, BEq, DecidableEq

/-- Embeds `InsertChatMessage`: the argument of `createChatMessage` before the
storage class adds `id`, `senderId`, `isRead` and `createdAt`. -/
structure InsertChatMessage where
  incidentId : Option String
  serviceId : Option String
  channelType : Option String
  message : String
  messageType : String
deriving Repr, BEq, DecidableEq

/-- Embeds `shared/schema.ts` `IncidentAssignment` audit-trail record. -/
structure IncidentAssignment where
  id : String
  incidentId : String
  responderId : String
  assignedById : String
  status : String
  assignedAt : Nat
deriving Repr, BEq, DecidableEq

/-- Embeds `shared/schema.ts` `AuditLog` (the fields `createAuditLog` writes). -/
structure AuditLog where
  id : String
  userId : String
  action : String
  entityType : Option String
  entityId : Option String
  createdAt : Nat
deriving Repr, BEq, DecidableEq

/-- The slices of the Firebase Realtime Database that the verified
operations touch.  Incident records are JSON objects because the PATCH
route merges arbitrary client-supplied keys into them. -/
structure FirebaseState where
  incidents : List (String × JObj)
  chatMessages : List ChatMessage
  incidentAssignments : List IncidentAssignment
  auditLogs : List AuditLog
deriving Repr, BEq

/-- Firebase `update(ref(db, path), u)`: merge the children `u` into the
record at `path`, creating the record when it does not exist. -/
def fbUpdate (l : List (String × JObj)) (id : String) (u : JObj) :
    List (String × JObj) :=
  match assocGet l id with
  | some old => assocReplace l id (objMerge old u)
  | none => l ++ [(id, u)]

namespace FirebaseStorage

/-- Embeds `FirebaseStorage.createAuditLog`. -/
def createAuditLog (st : FirebaseState) (logId userId action : String)
    (entityType entityId : Option String) (now : Nat) : FirebaseState :=
  { st with auditLogs := st.auditLogs ++
      [{ id := logId, userId := userId, action := action,
         entityType := entityType, entityId := entityId, createdAt := now }] }

/-- Embeds `FirebaseStorage.createIncidentAssignment`. -/
def createIncidentAssignment (st : FirebaseState)
    (assignId incidentId responderId assignedById : String) (now : Nat) :
    FirebaseState :=
  { st with incidentAssignments := st.incidentAssignments ++
      [{ id := assignId, incidentId := incidentId, responderId := responderId,
         assignedById := assignedById, status := "assigned", assignedAt := now }] }

/-- Embeds `FirebaseStorage.getIncident`. -/
def getIncident (st : FirebaseState) (id : String) : Option JObj :=
  assocGet st.incidents id

/-- Field of a stored incident record, the observation used by the
claims about incident state. -/
def getIncidentField (st : FirebaseState) (id k : String) : Option Json :=
  (getIncident st id).bind (fun rec => assocGet rec k)

/-- Embeds `FirebaseStorage.assignIncident`: unconditionally merge the
assignment fields into the incident record, then append an assignment
audit record and an audit log. -/
def assignIncident (st : FirebaseState) (incidentId responderId assignedById : String)
    (now : Nat) (assignId auditId : String) : FirebaseState :=
  let updates : JObj :=
    [("assignedResponderId", Json.str responderId),
     ("assignedById", Json.str assignedById),
     ("assignedAt", Json.num now),
     ("status", Json.str "assigned"),
     ("updatedAt", Json.num now)]
  let st := { st with incidents := fbUpdate st.incidents incidentId updates }
  let st := createIncidentAssignment st assignId incidentId responderId assignedById now
  createAuditLog st auditId assignedById "assign_incident" (some "incident")
    (some incidentId) now

/-- Embeds `FirebaseStorage.updateIncidentStatus`: build
`{ status, updatedAt: Date.now(), ...updates }`, stamp `completedAt` when
the status is `'resolved'`, merge into the record, log. -/
def updateIncidentStatus (st : FirebaseState) (id : String) (status : Json)
    (updates : JObj) (now : Nat) (auditId : String) : FirebaseState :=
  let updateData := objMerge [("status", status), ("updatedAt", Json.num now)] updates
  let updateData :=
    if status == Json.str "resolved"
    then objMerge updateData [("completedAt", Json.num now)]
    else updateData
  let st := { st with incidents := fbUpdate st.incidents id updateData }
  createAuditLog st auditId "system" "update_status" (some "incident") (some id) now

/-- Embeds `FirebaseStorage.updateIncident`: merge `{ ...updates, updatedAt }`. -/
def updateIncident (st : FirebaseState) (id : String) (updates : JObj)
    (now : Nat) : FirebaseState :=
  { st with incidents :=
      fbUpdate st.incidents id (objMerge updates [("updatedAt", Json.num now)]) }

/-- Encode a parsed insert payload back into the JSON record shape that
`createIncident` spreads into the stored object.  Optional fields that the
zod parse left absent produce no key, as in the TypeScript object. -/
def encodeInsert (d : InsertIncidentData) : JObj :=
  [("serviceId", Json.str d.serviceId),
   ("type", Json.str d.type),
   ("category", Json.str d.category),
   ("priority", Json.str d.priority),
   ("title", Json.str d.title)]
  ++ (match d.description with
      | some s => [("description", Json.str s)]
      | none => [])
  ++ [("location", Json.obj
        ([("latitude", Json.num d.location.latitude),
          ("longitude", Json.num d.location.longitude),
          ("address", Json.str d.location.address)]
         ++ (match d.location.ghanaPostGPS with
             | some g => [("ghanaPostGPS", Json.str g)]
             | none => []))),
      ("serviceNumber", Json.str d.serviceNumber),
      ("isSilent", Json.bool d.isSilent),
      ("isOffline", Json.bool d.isOffline)]
  ++ (match d.reporterId with
      | some r => [("reporterId", Json.str r)]
      | none => [])

/-- Embeds `FirebaseStorage.createIncident`: the literal
`{ id, ...incident, status: 'new', mediaUrls: [], metadata: {}, createdAt,
updatedAt }` (later keys override the spread), stored under a fresh id,
followed by a `create_incident` audit log. -/
def createIncident (st : FirebaseState) (d : InsertIncidentData)
    (now : Nat) (newId auditId : String) : JObj × FirebaseState :=
  let newIncident : JObj :=
    objMerge (("id", Json.str newId) :: encodeInsert d)
      [("status", Json.str "new"),
       ("mediaUrls", Json.arr []),
       ("metadata", Json.obj []),
       ("createdAt", Json.num now),
       ("updatedAt", Json.num now)]
  let st := { st with incidents := st.incidents ++ [(newId, newIncident)] }
  let st := createAuditLog st auditId (d.reporterId.getD "system")
    "create_incident" (some "incident") (some newId) now
  (newIncident, st)

/-- Embeds `FirebaseStorage.createChatMessage`: spread the insert payload, add
`id`, `senderId`, `isRead: false` and `createdAt`. -/
def createChatMessage (st : FirebaseState) (m : InsertChatMessage)
    (senderId : String) (now : Nat) (newId : String) :
    ChatMessage × FirebaseState :=
  let newMessage : ChatMessage :=
    { id := newId, incidentId := m.incidentId, serviceId := m.serviceId,
      channelType := m.channelType, senderId := senderId,
      message := m.message, messageType := m.messageType,
      isRead := false, createdAt := now }
  (newMessage, { st with chatMessages := st.chatMessages ++ [newMessage] })

end FirebaseStorage

/-- Ascending `createdAt` order on chat messages, the comparator
`(a, b) => a.createdAt - b.createdAt` used by `getChatMessages`. -/
def chatLe (a b : ChatMessage) : Prop := a.createdAt ≤ b.createdAt

instance : DecidableRel chatLe := fun a b => Nat.decLe a.createdAt b.createdAt

instance : IsTotal ChatMessage chatLe := ⟨fun a b => Nat.le_total a.createdAt b.createdAt⟩

instance : IsTrans ChatMessage chatLe := ⟨fun _ _ _ => Nat.le_trans⟩

namespace FirebaseStorage

/-- Embeds `FirebaseStorage.getChatMessages`: the stored messages whose
`incidentId` child equals the query value, sorted ascending by
`createdAt`. -/
def getChatMessages (st : FirebaseState) (incidentId : String) : List ChatMessage :=
  List.insertionSort chatLe
    (st.chatMessages.filter (fun m => m.incidentId == some incidentId))

end FirebaseStorage

/-! ### zod request schemas (`shared/schema.ts`) -/

/-- Embeds `z.string()` on a required object key. -/
def parseReqStr (o : JObj) (k : String) : Option String :=
  match assocGet o k with
  | some (Json.str s) => some s
  | _ => none

/-- Embeds `z.string().optional()`: an absent key parses to "not supplied";
a present key must hold a string. -/
def parseOptStr (o : JObj) (k : String) : Option (Option String) :=
  match assocGet o k with
  | none => some none
  | some (Json.str s) => some (some s)
  | some _ => none

/-- Embeds `z.enum(allowed).default(d)`. -/
def parseEnumD (o : JObj) (k : String) (allowed : List String) (d : String) :
    Option String :=
  match assocGet o k with
  | none => some d
  | some (Json.str s) => if allowed.contains s then some s else none
  | some _ => none

/-- Embeds `z.boolean().default(d)`. -/
def parseBoolD (o : JObj) (k : String) (d : Bool) : Option Bool :=
  match assocGet o k with
  | none => some d
  | some (Json.bool b) => some b
  | some _ => none

/-- Embeds `z.number()` on a required object key. -/
def parseNum (o : JObj) (k : String) : Option Int :=
  match assocGet o k with
  | some (Json.num n) => some n
  | _ => none

/-- Embeds `locationSchema.parse`: numeric `latitude` and `longitude`, string
`address`, optional string `ghanaPostGPS`; anything else fails. -/
def locationSchema : Json → Option Location
  | Json.obj o => do
      let latitude ← parseNum o "latitude"
      let longitude ← parseNum o "longitude"
      let address ← parseReqStr o "address"
      let ghanaPostGPS ← parseOptStr o "ghanaPostGPS"
      pure { latitude := latitude, longitude := longitude,
             address := address, ghanaPostGPS := ghanaPostGPS }
  | _ => none

/-- The required `location` field of an incident body: fails when the key
is absent or `locationSchema` rejects its value. -/
def parseLocationField : Json → Option Location
  | Json.obj o =>
      match assocGet o "location" with
      | some lj => locationSchema lj
      | none => none
  | _ => none

/-- Embeds `insertIncidentSchema.extend({ reporterId: z.string().optional() }).parse`,
the validation run by `POST /api/incidents`. -/
def insertIncidentSchema (j : Json) : Option InsertIncidentData :=
  match j with
  | Json.obj o => do
      let serviceId ← parseReqStr o "serviceId"
      let type ← parseReqStr o "type"
      let category ← parseReqStr o "category"
      let priority ← parseEnumD o "priority" ["low", "medium", "high", "critical"] "medium"
      let title ← parseReqStr o "title"
      let description ← parseOptStr o "description"
      let location ← parseLocationField j
      let serviceNumber ← parseReqStr o "serviceNumber"
      let isSilent ← parseBoolD o "isSilent" false
      let isOffline ← parseBoolD o "isOffline" false
      let reporterId ← parseOptStr o "reporterId"
      pure { serviceId := serviceId, type := type, category := category,
             priority := priority, title := title, description := description,
             location := location, serviceNumber := serviceNumber,
             isSilent := isSilent, isOffline := isOffline,
             reporterId := reporterId }
  | _ => none

/-- Embeds `insertChatMessageSchema.parse`. -/
def insertChatMessageSchema (j : Json) : Option InsertChatMessage :=
  match j with
  | Json.obj o => do
      let incidentId ← parseOptStr o "incidentId"
      let serviceId ← parseOptStr o "serviceId"
      let channelType ← parseEnumD o "channelType" ["incident", "service", "broadcast"] "incident"
      let message ← parseReqStr o "message"
      let messageType ← parseEnumD o "messageType"
        ["text", "image", "audio", "system", "assignment"] "text"
      pure { incidentId := incidentId, serviceId := serviceId,
             channelType := some channelType, message := message,
             messageType := messageType }
  | _ => none

/-! ### Route handlers (`server/routes.ts`) -/

/-- Outcome of `POST /api/incidents`. -/
inductive IncidentPostResult where
  | badRequest
  | created (incident : JObj)
deriving Repr, BEq

/-- Embeds `POST /api/incidents`: zod-validate the body; on failure respond 400
`'Invalid incident data'` without touching the store; on success create
the incident and respond 201 with it. -/
def postIncidentsRoute (st : FirebaseState) (body : Json) (now : Nat)
    (newId auditId : String) : IncidentPostResult × FirebaseState :=
  match insertIncidentSchema body with
  | none => (IncidentPostResult.badRequest, st)
  | some d =>
      let (incident, st2) := FirebaseStorage.createIncident st d now newId auditId
      (IncidentPostResult.created incident, st2)

/-- Embeds `PATCH /api/incidents/:id`: destructure `{ status, ...updates }`; a
truthy `status` goes through `updateIncidentStatus`, otherwise the rest of
the body goes through `updateIncident`; respond with the re-read record. -/
def patchIncidentRoute (st : FirebaseState) (id : String) (body : JObj)
    (now : Nat) (auditId : String) : Option JObj × FirebaseState :=
  let status := assocGet body "status"
  let updates := body.filter (fun kv => kv.1 != "status")
  let st2 :=
    if jsTruthy status then
      FirebaseStorage.updateIncidentStatus st id (status.getD Json.null) updates now auditId
    else
      FirebaseStorage.updateIncident st id updates now
  (FirebaseStorage.getIncident st2 id, st2)

/-- Model of `x || 'fallback'` on a request-body field that the handler
expects to be a string. -/
def jsStringOr (v : Option Json) (d : String) : String :=
  match v with
  | some (Json.str s) => if s == "" then d else s
  | _ => d

/-- Outcome of `POST /api/incidents/:incidentId/messages`. -/
inductive MessagePostResult where
  | badRequest
  | created (message : ChatMessage)
deriving Repr, BEq, DecidableEq

/-- Embeds `POST /api/incidents/:incidentId/messages`: zod-validate
`{ ...req.body, incidentId: req.params.incidentId }` (the path value
overrides any body value), then store the message with
`senderId = req.body.senderId || 'anonymous'`. -/
def postMessagesRoute (st : FirebaseState) (pathIncidentId : String)
    (body : JObj) (now : Nat) (newId : String) :
    MessagePostResult × FirebaseState :=
  match insertChatMessageSchema
      (Json.obj (objMerge body [("incidentId", Json.str pathIncidentId)])) with
  | none => (MessagePostResult.badRequest, st)
  | some m =>
      let senderId := jsStringOr (assocGet body "senderId") "anonymous"
      let (message, st2) := FirebaseStorage.createChatMessage st m senderId now newId
      (MessagePostResult.created message, st2)

/-! ### WebSocket chat handler (`registerRoutes` in `server/routes.ts`) -/

/-- A socket connected to the `/ws` server: the userId parsed from the
connection URL and the socket `readyState`. -/
structure WSClient where
  userId : Option String
  readyState : Nat
deriving Repr, BEq, DecidableEq

/-- Embeds `WebSocket.OPEN`. -/
def WebSocketOPEN : Nat := 1

/-- A frame the server pushes to a client. -/
inductive WsFrame where
  | newMessage (message : ChatMessage)
deriving Repr, BEq, DecidableEq

/-- A parsed incoming WebSocket message (the fields the handler reads). -/
structure WsIncoming where
  type : String
  incidentId : Option String
  content : String
  senderId : String
deriving Repr, BEq, DecidableEq

/-- The `ws.on('message')` handler: on a `'chat_message'` frame, store the
chat message and send a `'new_message'` frame to every connected client
whose socket is `OPEN`; all other frames are ignored.  The second
component lists the (client, frame) sends performed. -/
def handleWsMessage (st : FirebaseState) (clients : List WSClient)
    (msg : WsIncoming) (now : Nat) (newId : String) :
    FirebaseState × List (WSClient × WsFrame) :=
  if msg.type == "chat_message" then
    let (chatMessage, st2) := FirebaseStorage.createChatMessage st
      { incidentId := msg.incidentId, serviceId := none, channelType := none,
        message := msg.content, messageType := "text" } msg.senderId now newId
    (st2, (clients.filter (fun c => c.readyState == WebSocketOPEN)).map
      (fun c => (c, WsFrame.newMessage chatMessage)))
  else (st, [])

/-! ### Client components -/

/-- The user object `SimpleAuthLogin.handleSubmit` fabricates. -/
structure SimpleAuthUser where
  id : String
  phoneNumber : String
  role : String
  serviceId : Option String
  name : String
  preferredLanguage : String
  isActive : Bool
  createdAt : Nat
  updatedAt : Nat
deriving Repr, BEq, DecidableEq

/-- A successful simulated login: the fabricated user and the fixed
`setTimeout` delay before `onLogin` fires. -/
structure LoginSuccess where
  user : SimpleAuthUser
  delayMs : Nat
deriving Repr, BEq, DecidableEq

/-- Embeds `SimpleAuthLogin.handleSubmit`: reject empty phone number or name
(the falsy check), otherwise fabricate the user entirely from the form
fields and schedule `onLogin` after 1000 ms.  No store is consulted. -/
def handleSubmit (phoneNumber name role serviceId : String) (now : Nat) :
    Option LoginSuccess :=
  if phoneNumber == "" || name == "" then none
  else
    some
      { user :=
          { id := toString now,
            phoneNumber := phoneNumber,
            role := role,
            serviceId :=
              if role == "responder" || role == "service_admin"
              then some serviceId else none,
            name := name,
            preferredLanguage := "en",
            isActive := true,
            createdAt := now,
            updatedAt := now },
        delayMs := 1000 }

/-- The incident fields the `DispatcherConsole` component reads. -/
structure ClientIncident where
  id : String
  type : String
  status : String
  priority : String
deriving Repr, BEq, DecidableEq

/-- The emergency-unit fields the `DispatcherConsole` component reads. -/
structure ClientUnit where
  id : String
  unitType : String
  status : String
deriving Repr, BEq, DecidableEq

/-- The `select` of the `/api/incidents` query in `DispatcherConsole`:
keep the incidents whose status is neither `'resolved'` nor `'closed'`. -/
def dispatcherActiveIncidents (fetched : List ClientIncident) :
    List ClientIncident :=
  fetched.filter (fun i => i.status != "resolved" && i.status != "closed")

/-- The body of the `assignIncident` mutation in `DispatcherConsole`. -/
structure AssignUnitRequest where
  incidentId : String
  unitId : String
  dispatcherId : String
deriving Repr, BEq, DecidableEq

/-- The unit predicate of the Assign Unit button:
`unit.unitType === incident.type || unit.unitType === 'unified'`. -/
def unitMatches (i : ClientIncident) (u : ClientUnit) : Bool :=
  u.unitType == i.type || u.unitType == "unified"

/-- The Assign Unit action of `DispatcherConsole`: the button is rendered
only for incidents with status `'new'`; clicking it picks the first
available unit matching the incident type (or `'unified'`) and issues the
assignment request, or shows a "No Available Units" toast (`none`). -/
def assignUnitAction (units : List ClientUnit) (i : ClientIncident)
    (currentUserId : String) : Option AssignUnitRequest :=
  if i.status == "new" then
    match (units.filter (fun u => u.status == "available")).find?
        (fun u => unitMatches i u) with
    | some u => some { incidentId := i.id, unitId := u.id,
                       dispatcherId := currentUserId }
    | none => none
  else none

/-- The body of the `updateStatus` mutation in `ServiceDashboard`
(`PATCH /api/incidents/:id` with `{ status }`); selecting "resolved" in
the status dropdown is the only resolve operation in the application. -/
def serviceDashboardStatusBody (status : String) : JObj :=
  [("status", Json.str status)]

/-! ### MemStorage (`server/storage.ts`) -/

/-- A user record as kept by `MemStorage`. -/
structure MemUser where
  id : String
  phoneNumber : String
  role : String
  name : String
  isActive : Bool
  createdAt : Nat
deriving Repr, BEq, DecidableEq

/-- A TypeScript partial update of a `MemUser` (absent keys are `none`). -/
structure MemUserPatch where
  id : Option String := none
  phoneNumber : Option String := none
  role : Option String := none
  name : Option String := none
  isActive : Option Bool := none
  createdAt : Option Nat := none
deriving Repr, BEq, DecidableEq

/-- An incident record as constructed by `MemStorage.createIncident`. -/
structure MemIncident where
  id : String
  reporterId : String
  type : String
  description : Option String
  location : Location
  status : String
  assignedUnitId : Option String
  assignedDispatcherId : Option String
  mediaUrls : List String
  createdAt : Nat
  updatedAt : Nat
deriving Repr, BEq, DecidableEq

/-- A TypeScript partial update of a `MemIncident`: for each field,
`none` means the key is absent from the update object. -/
structure MemIncidentPatch where
  id : Option String := none
  reporterId : Option String := none
  type : Option String := none
  description : Option (Option String) := none
  location : Option Location := none
  status : Option String := none
  assignedUnitId : Option (Option String) := none
  assignedDispatcherId : Option (Option String) := none
  mediaUrls : Option (List String) := none
  createdAt : Option Nat := none
  updatedAt : Option Nat := none
deriving Repr, BEq, DecidableEq

/-- The insert payload of `MemStorage.createIncident`.  The declared
TypeScript insert type has no status/assignment/media fields, but the
record spread `{ ...incidentData, ... }` would copy any extra runtime
properties a caller smuggled in; they are modelled here as optional
fields so the theorems can show the creation literal overrides them. -/
structure MemInsertIncident where
  reporterId : String
  type : String
  description : Option String
  location : Location
  status : Option String := none
  assignedUnitId : Option (Option String) := none
  assignedDispatcherId : Option (Option String) := none
  mediaUrls : Option (List String) := none
deriving Repr, BEq, DecidableEq

/-- A chat message as kept by `MemStorage`. -/
structure MemChatMessage where
  id : String
  incidentId : String
  senderId : String
  message : String
  messageType : String
  createdAt : Nat
deriving Repr, BEq, DecidableEq

/-- An emergency unit as kept by `MemStorage`. -/
structure MemEmergencyUnit where
  id : String
  callSign : String
  unitType : String
  status : String
  location : Option Location
  currentIncidentId : Option String
  createdAt : Nat
deriving Repr, BEq, DecidableEq

/-- A TypeScript partial update of a `MemEmergencyUnit`. -/
structure MemEmergencyUnitPatch where
  id : Option String := none
  callSign : Option String := none
  unitType : Option String := none
  status : Option String := none
  location : Option (Option Location) := none
  currentIncidentId : Option (Option String) := none
  createdAt : Option Nat := none
deriving Repr, BEq, DecidableEq

/-- The four `Map`s of `MemStorage`, as insertion-ordered association
lists keyed by id. -/
structure MemState where
  users : List (String × MemUser)
  incidents : List (String × MemIncident)
  chatMessages : List (String × MemChatMessage)
  emergencyUnits : List (String × MemEmergencyUnit)
deriving Repr, BEq

/-- Ascending `createdAt` order on in-memory chat messages. -/
def memChatLe (a b : MemChatMessage) : Prop := a.createdAt ≤ b.createdAt

instance : DecidableRel memChatLe := fun a b => Nat.decLe a.createdAt b.createdAt

instance : IsTotal MemChatMessage memChatLe := ⟨fun a b => Nat.le_total a.createdAt b.createdAt⟩

instance : IsTrans MemChatMessage memChatLe := ⟨fun _ _ _ => Nat.le_trans⟩

namespace MemStorage

/-- Embeds `MemStorage.getIncident`. -/
def getIncident (st : MemState) (id : String) : Option MemIncident :=
  assocGet st.incidents id

/-- Embeds `MemStorage.getUser`. -/
def getUser (st : MemState) (id : String) : Option MemUser :=
  assocGet st.users id

/-- Embeds `MemStorage.getEmergencyUnit`. -/
def getEmergencyUnit (st : MemState) (id : String) : Option MemEmergencyUnit :=
  assocGet st.emergencyUnits id

/-- The spread `{ ...incident, ...updates }` on an incident record. -/
def applyIncidentPatch (i : MemIncident) (p : MemIncidentPatch) : MemIncident :=
  { id := p.id.getD i.id,
    reporterId := p.reporterId.getD i.reporterId,
    type := p.type.getD i.type,
    description := p.description.getD i.description,
    location := p.location.getD i.location,
    status := p.status.getD i.status,
    assignedUnitId := p.assignedUnitId.getD i.assignedUnitId,
    assignedDispatcherId := p.assignedDispatcherId.getD i.assignedDispatcherId,
    mediaUrls := p.mediaUrls.getD i.mediaUrls,
    createdAt := p.createdAt.getD i.createdAt,
    updatedAt := p.updatedAt.getD i.updatedAt }

/-- The spread `{ ...user, ...updates }`. -/
def applyUserPatch (u : MemUser) (p : MemUserPatch) : MemUser :=
  { id := p.id.getD u.id,
    phoneNumber := p.phoneNumber.getD u.phoneNumber,
    role := p.role.getD u.role,
    name := p.name.getD u.name,
    isActive := p.isActive.getD u.isActive,
    createdAt := p.createdAt.getD u.createdAt }

/-- The spread `{ ...unit, ...updates }`. -/
def applyUnitPatch (u : MemEmergencyUnit) (p : MemEmergencyUnitPatch) :
    MemEmergencyUnit :=
  { id := p.id.getD u.id,
    callSign := p.callSign.getD u.callSign,
    unitType := p.unitType.getD u.unitType,
    status := p.status.getD u.status,
    location := p.location.getD u.location,
    currentIncidentId := p.currentIncidentId.getD u.currentIncidentId,
    createdAt := p.createdAt.getD u.createdAt }

/-- Embeds `MemStorage.updateIncident`: missing id returns `undefined` and
writes nothing; otherwise store `{ ...incident, ...updates, updatedAt }`
and return it. -/
def updateIncident (st : MemState) (id : String) (p : MemIncidentPatch)
    (now : Nat) : Option MemIncident × MemState :=
  match assocGet st.incidents id with
  | none => (none, st)
  | some i =>
      let updatedIncident := { applyIncidentPatch i p with updatedAt := now }
      (some updatedIncident,
       { st with incidents := assocReplace st.incidents id updatedIncident })

/-- Embeds `MemStorage.updateUser`. -/
def updateUser (st : MemState) (id : String) (p : MemUserPatch) :
    Option MemUser × MemState :=
  match assocGet st.users id with
  | none => (none, st)
  | some u =>
      let updatedUser := applyUserPatch u p
      (some updatedUser,
       { st with users := assocReplace st.users id updatedUser })

/-- Embeds `MemStorage.updateEmergencyUnit`. -/
def updateEmergencyUnit (st : MemState) (id : String)
    (p : MemEmergencyUnitPatch) : Option MemEmergencyUnit × MemState :=
  match assocGet st.emergencyUnits id with
  | none => (none, st)
  | some u =>
      let updatedUnit := applyUnitPatch u p
      (some updatedUnit,
       { st with emergencyUnits := assocReplace st.emergencyUnits id updatedUnit })

/-- Embeds `MemStorage.createIncident`: spread the payload, then the literal
fields `id`, `status: "new"`, `assignedUnitId: null`,
`assignedDispatcherId: null`, `mediaUrls: []`,
`description: incidentData.description || null`, `createdAt`, `updatedAt`
override whatever the payload carried. -/
def createIncident (st : MemState) (d : MemInsertIncident) (newId : String)
    (now : Nat) : MemIncident × MemState :=
  let incident : MemIncident :=
    { reporterId := d.reporterId,
      type := d.type,
      location := d.location,
      id := newId,
      status := "new",
      assignedUnitId := none,
      assignedDispatcherId := none,
      mediaUrls := [],
      description :=
        match d.description with
        | some s => if s == "" then none else some s
        | none => none,
      createdAt := now,
      updatedAt := now }
  (incident, { st with incidents := st.incidents ++ [(newId, incident)] })

/-- Embeds `MemStorage.getChatMessages`: the stored messages for the incident,
sorted ascending by `createdAt`. -/
def getChatMessages (st : MemState) (incidentId : String) :
    List MemChatMessage :=
  List.insertionSort memChatLe
    (((st.chatMessages.map (fun kv => kv.2)).filter
        (fun m => m.incidentId == incidentId)))

end MemStorage

/-! ### Association-list lemmas -/

theorem assocGet_nil {α : Type} (k : String) : assocGet ([] : List (String × α)) k = none := rfl

theorem assocGet_cons {α : Type} (k' : String) (v : α) (l : List (String × α)) (k : String) :
    assocGet ((k', v) :: l) k = if k' == k then some v else assocGet l k := by
  by_cases h : k' == k <;> simp [assocGet, List.find?, h]

theorem assocGet_append {α : Type} (l₁ l₂ : List (String × α)) (k : String) :
    assocGet (l₁ ++ l₂) k =
      match assocGet l₁ k with
      | some v => some v
      | none => assocGet l₂ k := by
  induction l₁ with
  | nil => simp [assocGet_nil]
  | cons kv l ih =>
      rw [List.cons_append, ← kv.eta, assocGet_cons, assocGet_cons]
      by_cases h : kv.1 == k <;> simp [h, ih]

theorem assocReplace_cons {α : Type} (a : String) (b : α) (l : List (String × α))
    (k : String) (w : α) :
    assocReplace ((a, b) :: l) k w =
      (if a == k then (a, w) else (a, b)) :: assocReplace l k w := rfl

theorem assocGet_replace_self {α : Type} {l : List (String × α)} {k : String}
    (h : (assocGet l k).isSome) (w : α) :
    assocGet (assocReplace l k w) k = some w := by
  induction l with
  | nil => simp [assocGet_nil] at h
  | cons kv l ih =>
      obtain ⟨a, b⟩ := kv
      rw [assocGet_cons] at h
      rw [assocReplace_cons]
      by_cases hk : (a == k) = true
      · rw [if_pos hk, assocGet_cons, if_pos hk]
      · rw [if_neg hk] at h
        rw [if_neg hk, assocGet_cons, if_neg hk]
        exact ih h

theorem assocGet_replace_ne {α : Type} (l : List (String × α)) (k : String) (w : α)
    {j : String} (h : j ≠ k) :
    assocGet (assocReplace l k w) j = assocGet l j := by
  induction l with
  | nil => rfl
  | cons kv l ih =>
      obtain ⟨a, b⟩ := kv
      rw [assocReplace_cons]
      by_cases hk : (a == k) = true
      · have ha : a = k := by simpa using hk
        have haj : ¬ ((a == j) = true) := by
          intro e
          have hc : a = j := by simpa using e
          rw [ha] at hc
          exact h hc.symm
        rw [if_pos hk, assocGet_cons, assocGet_cons, if_neg haj, if_neg haj]
        exact ih
      · rw [if_neg hk, assocGet_cons, assocGet_cons]
        by_cases hj : (a == j) = true
        · rw [if_pos hj, if_pos hj]
        · rw [if_neg hj, if_neg hj]
          exact ih

theorem assocGet_filterKeys {α : Type} (P : String → Bool) (l : List (String × α))
    {k : String} (h : P k = true) :
    assocGet (l.filter (fun kv => P kv.1)) k = assocGet l k := by
  induction l with
  | nil => rfl
  | cons kv l ih =>
      obtain ⟨a, b⟩ := kv
      rw [List.filter_cons]
      by_cases hp : P a = true
      · rw [if_pos (by simpa using hp), assocGet_cons, assocGet_cons]
        by_cases hj : (a == k) = true
        · rw [if_pos hj, if_pos hj]
        · rw [if_neg hj, if_neg hj]
          exact ih
      · have hak : ¬ ((a == k) = true) := by
          intro e
          have hc : a = k := by simpa using e
          rw [hc] at hp
          exact hp h
        rw [if_neg (by simpa using hp), assocGet_cons, if_neg hak]
        exact ih

theorem assocGet_filterKeys_none {α : Type} (P : String → Bool) (l : List (String × α))
    {k : String} (h : P k = false) :
    assocGet (l.filter (fun kv => P kv.1)) k = none := by
  induction l with
  | nil => rfl
  | cons kv l ih =>
      obtain ⟨a, b⟩ := kv
      rw [List.filter_cons]
      by_cases hp : P a = true
      · have hak : ¬ ((a == k) = true) := by
          intro e
          have hc : a = k := by simpa using e
          rw [hc] at hp
          rw [h] at hp
          exact Bool.false_ne_true hp
        rw [if_pos (by simpa using hp), assocGet_cons, if_neg hak]
        exact ih
      · rw [if_neg (by simpa using hp)]
        exact ih

theorem assocGet_objMerge (o u : JObj) (k : String) :
    assocGet (objMerge o u) k =
      match assocGet u k with
      | some v => some v
      | none => assocGet o k := by
  unfold objMerge
  rw [assocGet_append]
  cases h : assocGet u k with
  | some v => simp
  | none =>
      simp only
      exact assocGet_filterKeys (fun s => (assocGet u s).isNone) o (by simp [h])

theorem fbUpdate_get_self (l : List (String × JObj)) (id : String) (u : JObj) :
    assocGet (fbUpdate l id u) id =
      some (match assocGet l id with
            | some old => objMerge old u
            | none => u) := by
  unfold fbUpdate
  cases h : assocGet l id with
  | some old =>
      simp only
      exact assocGet_replace_self (by simp [h]) _
  | none =>
      simp only
      rw [assocGet_append, h]
      simp [assocGet_cons]

theorem fbUpdate_get_ne (l : List (String × JObj)) (id : String) (u : JObj)
    {j : String} (h : j ≠ id) :
    assocGet (fbUpdate l id u) j = assocGet l j := by
  unfold fbUpdate
  cases hl : assocGet l id with
  | some old => exact assocGet_replace_ne l id _ h
  | none =>
      rw [assocGet_append]
      cases hj : assocGet l j with
      | some v => simp
      | none =>
          have hij : ¬ ((id == j) = true) := by
            intro e
            have hc : id = j := by simpa using e
            exact h hc.symm
          rw [assocGet_cons, if_neg hij]
          rfl

/-- A key erased by the PATCH route destructuring is absent from the rest
object. -/
theorem assocGet_erase_key (body : JObj) (k : String) :
    assocGet (body.filter (fun kv => kv.1 != k)) k = none :=
  assocGet_filterKeys_none (fun s => s != k) body (by simp)

/-- A `find?` over a `filter`: a found element satisfies both predicates and
every earlier element of the original list passing the filter fails the
search predicate. -/
theorem find?_filter_first {α : Type} (p q : α → Bool) (l : List α) (u : α)
    (h : (l.filter p).find? q = some u) :
    p u = true ∧ q u = true ∧
      ∃ l₁ l₂, l = l₁ ++ u :: l₂ ∧ ∀ v ∈ l₁, p v = true → q v = false := by
  induction l with
  | nil => simp [List.find?] at h
  | cons a l ih =>
      by_cases hp : p a
      · rw [List.filter_cons_of_pos hp] at h
        by_cases hq : q a
        · rw [List.find?_cons_of_pos _ hq] at h
          obtain rfl : a = u := by simpa using h
          exact ⟨hp, hq, [], l, rfl, by simp⟩
        · rw [List.find?_cons_of_neg _ (by simpa using hq)] at h
          obtain ⟨hpu, hqu, l₁, l₂, rfl, hall⟩ := ih h
          refine ⟨hpu, hqu, a :: l₁, l₂, rfl, ?_⟩
          intro v hv _
          rcases List.mem_cons.mp hv with rfl | hv'
          · simpa using hq
          · exact hall v hv' (by assumption)
      · rw [List.filter_cons_of_neg (by simpa using hp)] at h
        obtain ⟨hpu, hqu, l₁, l₂, rfl, hall⟩ := ih h
        refine ⟨hpu, hqu, a :: l₁, l₂, rfl, ?_⟩
        intro v hv hpv
        rcases List.mem_cons.mp hv with rfl | hv'
        · exact absurd hpv (by simpa using hp)
        · exact hall v hv' hpv

theorem assocGet_objMerge_of_mem (o : JObj) {u : JObj} {k : String} {v : Json}
    (h : assocGet u k = some v) : assocGet (objMerge o u) k = some v := by
  rw [assocGet_objMerge, h]

theorem assocGet_objMerge_of_none (o : JObj) {u : JObj} {k : String}
    (h : assocGet u k = none) : assocGet (objMerge o u) k = assocGet o k := by
  rw [assocGet_objMerge, h]

/-- After a Firebase `update`, any key supplied by the update object reads
back with the supplied value, whether or not the record existed. -/
theorem assocGet_fbUpdate_field (l : List (String × JObj)) (id : String) (u : JObj)
    {k : String} {v : Json} (hv : assocGet u k = some v) :
    (assocGet (fbUpdate l id u) id).bind (fun r => assocGet r k) = some v := by
  rw [fbUpdate_get_self]
  cases h : assocGet l id with
  | some old =>
      simp only [h, Option.bind_some]
      exact assocGet_objMerge_of_mem old hv
  | none =>
      simp only [h, Option.bind_some]
      exact hv

/-- A successful `insertChatMessageSchema` parse reproduces the
`incidentId` field the object carried. -/
theorem insertChatMessageSchema_incidentId {o : JObj} {m : InsertChatMessage}
    (h : insertChatMessageSchema (Json.obj o) = some m) :
    parseOptStr o "incidentId" = some m.incidentId := by
  cases h₁ : parseOptStr o "incidentId" with
  | none => simp [insertChatMessageSchema, h₁] at h
  | some a₁ =>
      cases h₂ : parseOptStr o "serviceId" with
      | none => simp [insertChatMessageSchema, h₁, h₂] at h
      | some a₂ =>
          cases h₃ : parseEnumD o "channelType" ["incident", "service", "broadcast"] "incident" with
          | none => simp [insertChatMessageSchema, h₁, h₂, h₃] at h
          | some a₃ =>
              cases h₄ : parseReqStr o "message" with
              | none => simp [insertChatMessageSchema, h₁, h₂, h₃, h₄] at h
              | some a₄ =>
                  cases h₅ : parseEnumD o "messageType"
                      ["text", "image", "audio", "system", "assignment"] "text" with
                  | none => simp [insertChatMessageSchema, h₁, h₂, h₃, h₄, h₅] at h
                  | some a₅ =>
                      have h' : InsertChatMessage.mk a₁ a₂ (some a₃) a₄ a₅ = m := by
                        simpa [insertChatMessageSchema, h₁, h₂, h₃, h₄, h₅] using h
                      rw [← h']

theorem createAuditLog_incidents (st : FirebaseState) (g u a : String)
    (t i : Option String) (n : Nat) :
    (FirebaseStorage.createAuditLog st g u a t i n).incidents = st.incidents := rfl

/-- The `updateIncidentStatus` operation stores exactly the supplied status value when
the extra updates object does not itself carry a `status` key. -/
theorem getIncidentField_updateIncidentStatus (st : FirebaseState) (id : String)
    (status : Json) (updates : JObj) (now : Nat) (auditId : String)
    (hupd : assocGet updates "status" = none) :
    FirebaseStorage.getIncidentField
      (FirebaseStorage.updateIncidentStatus st id status updates now auditId)
      id "status" = some status := by
  have hbase : assocGet (objMerge [("status", status), ("updatedAt", Json.num now)]
      updates) "status" = some status := by
    rw [assocGet_objMerge_of_none _ hupd]
    rfl
  unfold FirebaseStorage.updateIncidentStatus
  simp only [FirebaseStorage.getIncidentField, FirebaseStorage.getIncident,
    createAuditLog_incidents]
  by_cases hres : (status == Json.str "resolved") = true
  · rw [if_pos hres]
    refine assocGet_fbUpdate_field st.incidents id _ ?_
    rw [assocGet_objMerge_of_none _ (by rfl)]
    exact hbase
  · rw [if_neg hres]
    exact assocGet_fbUpdate_field st.incidents id _ hbase

/-! ### Claim theorems -/

/-- C1 (amended): Incident status updates are unvalidated string writes
for every non-empty status string: a PATCH body carrying a non-empty
string `s` as `status` stores exactly `s` on the incident, with no check
against the current status and no restriction to the enumerated values;
the storage layers themselves accept any string.  (An empty-string status
is falsy in the route's `if (status)` test and leaves the status field
unchanged, the one exception forced by the counterexample.) -/
theorem c1_status_write_unvalidated (st : FirebaseState) (id : String)
    (body : JObj) (s : String) (now : Nat) (auditId : String)
    (hs : assocGet body "status" = some (Json.str s)) (hne : s ≠ "") :
    FirebaseStorage.getIncidentField
        (patchIncidentRoute st id body now auditId).2 id "status"
      = some (Json.str s) ∧
    (∀ (mst : MemState) (mid : String) (i : MemIncident) (t : String) (n₂ : Nat),
      MemStorage.getIncident mst mid = some i →
      ∃ upd, (MemStorage.updateIncident mst mid { status := some t } n₂).1
          = some upd ∧ upd.status = t) := by
  constructor
  · have htr : jsTruthy (assocGet body "status") = true := by
      rw [hs]
      simp [jsTruthy, hne]
    simp only [patchIncidentRoute, htr, if_true]
    rw [hs]
    exact getIncidentField_updateIncidentStatus st id (Json.str s)
      (body.filter (fun kv => kv.1 != "status")) now auditId
      (assocGet_erase_key body "status")
  · intro mst mid i t n₂ h
    have h0 : assocGet mst.incidents mid = some i := h
    unfold MemStorage.updateIncident
    rw [h0]
    exact ⟨_, rfl, rfl⟩

/-- Counterexample for C1 as stated: the claim quantifies over every
string supplied by a client request, but a PATCH body with the empty
string as `status` is treated as having no status at all — the incident
keeps its previous status `"new"` instead of storing `""`. -/
theorem c1_empty_status_counterexample :
    FirebaseStorage.getIncidentField
        (patchIncidentRoute ⟨[("i1", [("status", Json.str "new")])], [], [], []⟩
          "i1" [("status", Json.str "")] 5 "g1").2 "i1" "status"
      = some (Json.str "new") ∧ "new" ≠ "" := by
  exact ⟨rfl, by decide⟩

/-- Witness for C1 (amended): a PATCH carrying the non-enumerated status
`"BOGUS"` onto an incident currently `"resolved"` stores exactly
`"BOGUS"`; the in-memory layer likewise stores an arbitrary string. -/
theorem c1_status_write_unvalidated_witness :
    FirebaseStorage.getIncidentField
        (patchIncidentRoute ⟨[("i1", [("status", Json.str "resolved")])], [], [], []⟩
          "i1" [("status", Json.str "BOGUS")] 5 "g1").2 "i1" "status"
      = some (Json.str "BOGUS") ∧
    ∃ upd, (MemStorage.updateIncident
        ⟨[], [("i1", { id := "i1", reporterId := "u1", type := "police",
                       description := none,
                       location := { latitude := 5, longitude := 0,
                                     address := "Accra", ghanaPostGPS := none },
                       status := "resolved", assignedUnitId := none,
                       assignedDispatcherId := none, mediaUrls := [],
                       createdAt := 1, updatedAt := 1 })], [], []⟩
        "i1" { status := some "NOT_A_STATUS" } 9).1 = some upd ∧
      upd.status = "NOT_A_STATUS" := by
  obtain ⟨hroute, hmem⟩ :=
    c1_status_write_unvalidated
      ⟨[("i1", [("status", Json.str "resolved")])], [], [], []⟩
      "i1" [("status", Json.str "BOGUS")] "BOGUS" 5 "g1" rfl (by decide)
  refine ⟨hroute, ?_⟩
  exact hmem
    ⟨[], [("i1", { id := "i1", reporterId := "u1", type := "police",
                   description := none,
                   location := { latitude := 5, longitude := 0,
                                 address := "Accra", ghanaPostGPS := none },
                   status := "resolved", assignedUnitId := none,
                   assignedDispatcherId := none, mediaUrls := [],
                   createdAt := 1, updatedAt := 1 })], [], []⟩
    "i1"
    { id := "i1", reporterId := "u1", type := "police",
      description := none,
      location := { latitude := 5, longitude := 0,
                    address := "Accra", ghanaPostGPS := none },
      status := "resolved", assignedUnitId := none,
      assignedDispatcherId := none, mediaUrls := [],
      createdAt := 1, updatedAt := 1 }
    "NOT_A_STATUS" 9 rfl

/-- C2: Assigning an incident is a single record update with no conflict
resolution: `assignIncident` writes the assignment fields (status
`"assigned"`, the responder id, the assigner id) onto that one incident
record, leaves every other incident untouched, requires nothing of the
incident's current state, and a second assignment of the same incident
overwrites the first (last write wins). -/
theorem c2_assignment_last_write_wins (st : FirebaseState)
    (id r₁ a₁ r₂ a₂ : String) (t₁ t₂ : Nat) (g₁ g₂ g₃ g₄ : String) :
    (FirebaseStorage.getIncidentField
        (FirebaseStorage.assignIncident st id r₁ a₁ t₁ g₁ g₂) id "status"
      = some (Json.str "assigned") ∧
     FirebaseStorage.getIncidentField
        (FirebaseStorage.assignIncident st id r₁ a₁ t₁ g₁ g₂) id "assignedResponderId"
      = some (Json.str r₁) ∧
     FirebaseStorage.getIncidentField
        (FirebaseStorage.assignIncident st id r₁ a₁ t₁ g₁ g₂) id "assignedById"
      = some (Json.str a₁)) ∧
    (∀ j, j ≠ id →
      FirebaseStorage.getIncident
          (FirebaseStorage.assignIncident st id r₁ a₁ t₁ g₁ g₂) j
        = FirebaseStorage.getIncident st j) ∧
    (FirebaseStorage.getIncidentField
        (FirebaseStorage.assignIncident
          (FirebaseStorage.assignIncident st id r₁ a₁ t₁ g₁ g₂) id r₂ a₂ t₂ g₃ g₄)
        id "status"
      = some (Json.str "assigned") ∧
     FirebaseStorage.getIncidentField
        (FirebaseStorage.assignIncident
          (FirebaseStorage.assignIncident st id r₁ a₁ t₁ g₁ g₂) id r₂ a₂ t₂ g₃ g₄)
        id "assignedResponderId"
      = some (Json.str r₂) ∧
     FirebaseStorage.getIncidentField
        (FirebaseStorage.assignIncident
          (FirebaseStorage.assignIncident st id r₁ a₁ t₁ g₁ g₂) id r₂ a₂ t₂ g₃ g₄)
        id "assignedById"
      = some (Json.str a₂)) := by
  refine ⟨⟨?_, ?_, ?_⟩, ?_, ⟨?_, ?_, ?_⟩⟩
  · exact assocGet_fbUpdate_field st.incidents id _ (by rfl)
  · exact assocGet_fbUpdate_field st.incidents id _ (by rfl)
  · exact assocGet_fbUpdate_field st.incidents id _ (by rfl)
  · intro j hj
    exact fbUpdate_get_ne st.incidents id _ hj
  · exact assocGet_fbUpdate_field _ id _ (by rfl)
  · exact assocGet_fbUpdate_field _ id _ (by rfl)
  · exact assocGet_fbUpdate_field _ id _ (by rfl)

/-- Witness for C2: assigning an already-assigned concrete incident twice
leaves the second responder and assigner on the record. -/
theorem c2_assignment_last_write_wins_witness :
    FirebaseStorage.getIncidentField
        (FirebaseStorage.assignIncident
          (FirebaseStorage.assignIncident
            ⟨[("i1", [("status", Json.str "new")])], [], [], []⟩
            "i1" "r1" "d1" 1 "g1" "g2")
          "i1" "r2" "d2" 2 "g3" "g4")
        "i1" "assignedResponderId"
      = some (Json.str "r2") ∧
    FirebaseStorage.getIncident
        (FirebaseStorage.assignIncident
          ⟨[("i1", [("status", Json.str "new")])], [], [], []⟩
          "i1" "r1" "d1" 1 "g1" "g2")
        "other"
      = FirebaseStorage.getIncident
          ⟨[("i1", [("status", Json.str "new")])], [], [], []⟩ "other" := by
  obtain ⟨_, hframe, ⟨_, hresp, _⟩⟩ :=
    c2_assignment_last_write_wins
      ⟨[("i1", [("status", Json.str "new")])], [], [], []⟩
      "i1" "r1" "d1" "r2" "d2" 1 2 "g1" "g2" "g3" "g4"
  exact ⟨hresp, hframe "other" (by decide)⟩

/-- C3: In the in-memory implementation, real-time chat delivery is a
per-connection fan-out with no ordering, retry, or delivery guarantees:
on a `'chat_message'` frame the server stores the chat message and sends
one `'new_message'` frame to each connected client whose socket is open,
regardless of the message's incident or user; clients whose socket is not
open receive nothing, and the recipient set is the same for any two
chat messages. -/
theorem c3_ws_fanout (st : FirebaseState) (clients : List WSClient)
    (msg msg₂ : WsIncoming) (now now₂ : Nat) (newId newId₂ : String)
    (ht : msg.type = "chat_message") (ht₂ : msg₂.type = "chat_message") :
    ∃ stored : ChatMessage,
      (handleWsMessage st clients msg now newId).1.chatMessages
        = st.chatMessages ++ [stored] ∧
      stored.incidentId = msg.incidentId ∧
      stored.message = msg.content ∧
      stored.senderId = msg.senderId ∧
      (handleWsMessage st clients msg now newId).2
        = (clients.filter (fun c => c.readyState == WebSocketOPEN)).map
            (fun c => (c, WsFrame.newMessage stored)) ∧
      (∀ c f, (c, f) ∈ (handleWsMessage st clients msg now newId).2 →
        c.readyState = WebSocketOPEN ∧ f = WsFrame.newMessage stored) ∧
      (handleWsMessage st clients msg now newId).2.map Prod.fst
        = (handleWsMessage st clients msg₂ now₂ newId₂).2.map Prod.fst := by
  have hcond : (msg.type == "chat_message") = true := by simp [ht]
  have hcond₂ : (msg₂.type == "chat_message") = true := by simp [ht₂]
  refine ⟨{ id := newId, incidentId := msg.incidentId, serviceId := none,
            channelType := none, senderId := msg.senderId,
            message := msg.content, messageType := "text",
            isRead := false, createdAt := now }, ?_, rfl, rfl, rfl, ?_, ?_, ?_⟩
  · simp only [handleWsMessage, hcond, if_true]
    rfl
  · simp only [handleWsMessage, hcond, if_true]
    rfl
  · intro c f hmem
    simp only [handleWsMessage, hcond, if_true] at hmem
    rcases List.mem_map.mp hmem with ⟨c₀, hc₀, heq⟩
    obtain ⟨rfl, rfl⟩ : c₀ = c ∧
        WsFrame.newMessage
          { id := newId, incidentId := msg.incidentId, serviceId := none,
            channelType := none, senderId := msg.senderId,
            message := msg.content, messageType := "text",
            isRead := false, createdAt := now } = f := by
      exact ⟨congrArg Prod.fst heq, congrArg Prod.snd heq⟩
    rcases List.mem_filter.mp hc₀ with ⟨_, hopen⟩
    exact ⟨by simpa using hopen, rfl⟩
  · simp only [handleWsMessage, hcond, hcond₂, if_true]
    simp [List.map_map, Function.comp]

/-- Witness for C3: one open and one closed client; the open client is
the only recipient. -/
theorem c3_ws_fanout_witness :
    ∃ stored : ChatMessage,
      (handleWsMessage ⟨[], [], [], []⟩
        [⟨some "u1", 1⟩, ⟨some "u2", 3⟩]
        ⟨"chat_message", some "i1", "help", "u1"⟩ 5 "m1").1.chatMessages
        = [] ++ [stored] ∧
      (handleWsMessage ⟨[], [], [], []⟩
        [⟨some "u1", 1⟩, ⟨some "u2", 3⟩]
        ⟨"chat_message", some "i1", "help", "u1"⟩ 5 "m1").2
        = ([⟨some "u1", 1⟩, ⟨some "u2", 3⟩].filter
            (fun c => c.readyState == WebSocketOPEN)).map
            (fun c => (c, WsFrame.newMessage stored)) := by
  obtain ⟨stored, hstore, _, _, _, hsends, _, _⟩ :=
    c3_ws_fanout ⟨[], [], [], []⟩ [⟨some "u1", 1⟩, ⟨some "u2", 3⟩]
      ⟨"chat_message", some "i1", "help", "u1"⟩
      ⟨"chat_message", some "i2", "fire", "u9"⟩ 5 6 "m1" "m2" rfl rfl
  exact ⟨stored, hstore, hsends⟩

/-- C4: Chat messages are exchanged per-incident: both storage layers
return, for an incident id, exactly the stored messages whose
`incidentId` equals that id, sorted in ascending `createdAt` order; and a
message posted to `POST /api/incidents/:incidentId/messages` is stored
under the `incidentId` taken from the URL path. -/
theorem c4_per_incident_messages (mst : MemState) (iid : String)
    (m : MemChatMessage) (fst : FirebaseState) (fiid : String)
    (fm : ChatMessage) (pathId : String) (body : JObj) (now : Nat)
    (newId : String) :
    (m ∈ MemStorage.getChatMessages mst iid ↔
      m ∈ mst.chatMessages.map (fun kv => kv.2) ∧ m.incidentId = iid) ∧
    List.Sorted memChatLe (MemStorage.getChatMessages mst iid) ∧
    (fm ∈ FirebaseStorage.getChatMessages fst fiid ↔
      fm ∈ fst.chatMessages ∧ fm.incidentId = some fiid) ∧
    List.Sorted chatLe (FirebaseStorage.getChatMessages fst fiid) ∧
    (∀ msg st₂, postMessagesRoute fst pathId body now newId
        = (MessagePostResult.created msg, st₂) →
      msg.incidentId = some pathId ∧
      st₂.chatMessages = fst.chatMessages ++ [msg]) := by
  refine ⟨?_, ?_, ?_, ?_, ?_⟩
  · simp [MemStorage.getChatMessages, List.mem_filter]
  · exact List.sorted_insertionSort memChatLe _
  · simp [FirebaseStorage.getChatMessages, List.mem_filter]
  · exact List.sorted_insertionSort chatLe _
  · intro msg st₂ heq
    unfold postMessagesRoute at heq
    cases hp : insertChatMessageSchema
        (Json.obj (objMerge body [("incidentId", Json.str pathId)])) with
    | none => rw [hp] at heq; simp at heq
    | some m₀ =>
        rw [hp] at heq
        simp only [FirebaseStorage.createChatMessage, Prod.mk.injEq,
          MessagePostResult.created.injEq] at heq
        obtain ⟨hmsg, hst⟩ := heq
        have hid : parseOptStr (objMerge body [("incidentId", Json.str pathId)])
            "incidentId" = some m₀.incidentId :=
          insertChatMessageSchema_incidentId hp
        have hlook : assocGet (objMerge body [("incidentId", Json.str pathId)])
            "incidentId" = some (Json.str pathId) :=
          assocGet_objMerge_of_mem body (by rfl)
        rw [parseOptStr, hlook] at hid
        have hm₀ : m₀.incidentId = some pathId := by
          simpa using hid.symm
        constructor
        · rw [← hmsg]
          exact hm₀
        · rw [← hst, ← hmsg]

/-- Witness for C4: posting `{ message: "hi" }` to incident `i9` stores
the message under `i9`. -/
theorem c4_per_incident_messages_witness :
    (postMessagesRoute ⟨[], [], [], []⟩ "i9" [("message", Json.str "hi")] 4 "m7").1
      = MessagePostResult.created
          ⟨"m7", some "i9", none, some "incident", "anonymous", "hi", "text", false, 4⟩ ∧
    (⟨"m7", some "i9", none, some "incident", "anonymous", "hi", "text", false, 4⟩ :
        ChatMessage).incidentId = some "i9" := by
  have h := (c4_per_incident_messages ⟨[], [], [], []⟩ "i1"
      ⟨"m1", "i1", "u1", "hello", "text", 2⟩ ⟨[], [], [], []⟩ "i1"
      ⟨"m1", some "i1", none, none, "u1", "hello", "text", false, 2⟩
      "i9" [("message", Json.str "hi")] 4 "m7").2.2.2.2
      ⟨"m7", some "i9", none, some "incident", "anonymous", "hi", "text", false, 4⟩
      ⟨[], [⟨"m7", some "i9", none, some "incident", "anonymous", "hi", "text", false, 4⟩], [], []⟩
      rfl
  exact ⟨rfl, h.1⟩

/-- C5: Citizens report incidents with location data: the body of
`POST /api/incidents` must carry a `location` object with numeric
latitude/longitude and a string address — any body whose location is
missing or malformed (or that fails any other required field of the
insert schema) is answered with 400 `'Invalid incident data'` and no
incident is created; every schema-valid body is answered 201 with the
created incident, which is appended to the store. -/
theorem c5_incident_validation (st : FirebaseState) (body : Json) (now : Nat)
    (newId auditId : String) :
    (parseLocationField body = none → insertIncidentSchema body = none) ∧
    (insertIncidentSchema body = none →
      postIncidentsRoute st body now newId auditId
        = (IncidentPostResult.badRequest, st)) ∧
    (∀ d, insertIncidentSchema body = some d →
      postIncidentsRoute st body now newId auditId
        = (IncidentPostResult.created
             (FirebaseStorage.createIncident st d now newId auditId).1,
           (FirebaseStorage.createIncident st d now newId auditId).2) ∧
      (FirebaseStorage.createIncident st d now newId auditId).2.incidents
        = st.incidents ++
            [(newId, (FirebaseStorage.createIncident st d now newId auditId).1)]) := by
  refine ⟨?_, ?_, ?_⟩
  · intro hloc
    cases body
    case null => rfl
    case bool => rfl
    case num => rfl
    case str => rfl
    case arr => rfl
    case obj o =>
      cases h₁ : parseReqStr o "serviceId" with
      | none => simp only [insertIncidentSchema, h₁, Option.bind_eq_bind, Option.none_bind]
      | some v₁ =>
          cases h₂ : parseReqStr o "type" with
          | none => simp only [insertIncidentSchema, h₁, h₂, Option.bind_eq_bind, Option.none_bind, Option.some_bind]
          | some v₂ =>
              cases h₃ : parseReqStr o "category" with
              | none => simp only [insertIncidentSchema, h₁, h₂, h₃, Option.bind_eq_bind, Option.none_bind, Option.some_bind]
              | some v₃ =>
                  cases h₄ : parseEnumD o "priority"
                      ["low", "medium", "high", "critical"] "medium" with
                  | none => simp only [insertIncidentSchema, h₁, h₂, h₃, h₄, Option.bind_eq_bind, Option.none_bind, Option.some_bind]
                  | some v₄ =>
                      cases h₅ : parseReqStr o "title" with
                      | none => simp only [insertIncidentSchema, h₁, h₂, h₃, h₄, h₅, Option.bind_eq_bind, Option.none_bind, Option.some_bind]
                      | some v₅ =>
                          cases h₆ : parseOptStr o "description" with
                          | none =>
                              simp only [insertIncidentSchema, h₁, h₂, h₃, h₄, h₅, h₆, Option.bind_eq_bind, Option.none_bind, Option.some_bind]
                          | some v₆ =>
                              simp only [insertIncidentSchema, h₁, h₂, h₃, h₄, h₅, h₆, hloc, Option.bind_eq_bind, Option.none_bind, Option.some_bind]
  · intro hn
    unfold postIncidentsRoute
    rw [hn]
  · intro d hd
    unfold postIncidentsRoute
    rw [hd]
    exact ⟨rfl, rfl⟩

/-- Witness for C5: a body without a location is rejected with 400 and no
write; a fully valid body is answered 201 with the created incident. -/
theorem c5_incident_validation_witness :
    insertIncidentSchema (Json.obj [("title", Json.str "x")]) = none ∧
    postIncidentsRoute ⟨[], [], [], []⟩ (Json.obj [("title", Json.str "x")]) 3 "n1" "g1"
      = (IncidentPostResult.badRequest, ⟨[], [], [], []⟩) ∧
    postIncidentsRoute ⟨[], [], [], []⟩
        (Json.obj [("serviceId", Json.str "police"), ("type", Json.str "police"),
          ("category", Json.str "robbery"), ("title", Json.str "Robbery"),
          ("location", Json.obj [("latitude", Json.num 5), ("longitude", Json.num 0),
            ("address", Json.str "Accra")]),
          ("serviceNumber", Json.str "191")]) 3 "n1" "g1"
      = (IncidentPostResult.created
           (FirebaseStorage.createIncident ⟨[], [], [], []⟩
             ⟨"police", "police", "robbery", "medium", "Robbery", none,
              ⟨5, 0, "Accra", none⟩, "191", false, false, none⟩ 3 "n1" "g1").1,
         (FirebaseStorage.createIncident ⟨[], [], [], []⟩
           ⟨"police", "police", "robbery", "medium", "Robbery", none,
            ⟨5, 0, "Accra", none⟩, "191", false, false, none⟩ 3 "n1" "g1").2) := by
  have h₁ := (c5_incident_validation ⟨[], [], [], []⟩
      (Json.obj [("title", Json.str "x")]) 3 "n1" "g1").1 rfl
  have h₂ := (c5_incident_validation ⟨[], [], [], []⟩
      (Json.obj [("title", Json.str "x")]) 3 "n1" "g1").2.1 h₁
  have h₃ := (c5_incident_validation ⟨[], [], [], []⟩
      (Json.obj [("serviceId", Json.str "police"), ("type", Json.str "police"),
        ("category", Json.str "robbery"), ("title", Json.str "Robbery"),
        ("location", Json.obj [("latitude", Json.num 5), ("longitude", Json.num 0),
          ("address", Json.str "Accra")]),
        ("serviceNumber", Json.str "191")]) 3 "n1" "g1").2.2
      ⟨"police", "police", "robbery", "medium", "Robbery", none,
       ⟨5, 0, "Accra", none⟩, "191", false, false, none⟩ rfl
  exact ⟨h₁, h₂, h₃.1⟩

/-- C6: Authentication is simulated with no credential verification: for
every non-empty phone number and non-empty name, `handleSubmit` always
succeeds after a fixed 1000 ms delay, and the resulting user object is
built entirely from the form inputs (any self-selected role included);
no stored credential, password or one-time code is consulted. -/
theorem c6_simulated_login (phoneNumber name role serviceId : String) (now : Nat)
    (hp : phoneNumber ≠ "") (hn : name ≠ "") :
    handleSubmit phoneNumber name role serviceId now =
      some
        { user :=
            { id := toString now,
              phoneNumber := phoneNumber,
              role := role,
              serviceId :=
                if role == "responder" || role == "service_admin"
                then some serviceId else none,
              name := name,
              preferredLanguage := "en",
              isActive := true,
              createdAt := now,
              updatedAt := now },
          delayMs := 1000 } := by
  have hcond : ¬ ((phoneNumber == "" || name == "") = true) := by
    simp [hp, hn]
  unfold handleSubmit
  rw [if_neg hcond]

/-- Witness for C6: a concrete login with the self-selected role
`global_admin` succeeds with delay 1000 and the fabricated user. -/
theorem c6_simulated_login_witness :
    handleSubmit "+233200000001" "Ama" "global_admin" "" 7 =
      some
        { user :=
            { id := "7", phoneNumber := "+233200000001", role := "global_admin",
              serviceId := none, name := "Ama", preferredLanguage := "en",
              isActive := true, createdAt := 7, updatedAt := 7 },
          delayMs := 1000 } := by
  have h := c6_simulated_login "+233200000001" "Ama" "global_admin" "" 7
    (by decide) (by decide)
  simpa using h

/-- C7: Dispatchers view, assign, and resolve incidents through the same
unvalidated update path: the console's active list is exactly the fetched
incidents whose status is neither `'resolved'` nor `'closed'`; the Assign
Unit action is offered only for status `'new'` and picks the first
available unit whose type matches the incident type or is `'unified'`;
and the dashboard's resolve action is nothing but the generic PATCH
status write evaluated at `'resolved'`. -/
theorem c7_dispatcher_console (fetched : List ClientIncident)
    (i j : ClientIncident) (units : List ClientUnit) (uid : String)
    (r : AssignUnitRequest) (st : FirebaseState) (id : String) (now : Nat)
    (auditId : String) :
    (j ∈ dispatcherActiveIncidents fetched ↔
      j ∈ fetched ∧ j.status ≠ "resolved" ∧ j.status ≠ "closed") ∧
    (assignUnitAction units i uid = some r →
      i.status = "new" ∧ r.incidentId = i.id ∧ r.dispatcherId = uid ∧
      ∃ u l₁ l₂, units = l₁ ++ u :: l₂ ∧ r.unitId = u.id ∧
        u.status = "available" ∧
        (u.unitType = i.type ∨ u.unitType = "unified") ∧
        ∀ v ∈ l₁, v.status = "available" →
          ¬(v.unitType = i.type ∨ v.unitType = "unified")) ∧
    (i.status ≠ "new" → assignUnitAction units i uid = none) ∧
    ((patchIncidentRoute st id (serviceDashboardStatusBody "resolved") now auditId).2
      = FirebaseStorage.updateIncidentStatus st id (Json.str "resolved") [] now auditId) := by
  refine ⟨?_, ?_, ?_, ?_⟩
  · simp [dispatcherActiveIncidents, List.mem_filter, and_assoc]
  · intro hr
    unfold assignUnitAction at hr
    by_cases hnew : (i.status == "new") = true
    · rw [if_pos hnew] at hr
      have hstat : i.status = "new" := by simpa using hnew
      cases hf : (units.filter (fun u => u.status == "available")).find?
          (fun u => unitMatches i u) with
      | none => rw [hf] at hr; exact absurd hr (by simp)
      | some u =>
          rw [hf] at hr
          obtain rfl : AssignUnitRequest.mk i.id u.id uid = r := by
            simpa using hr
          obtain ⟨hp, hq, l₁, l₂, hsplit, hfirst⟩ :=
            find?_filter_first _ _ units u hf
          refine ⟨hstat, rfl, rfl, u, l₁, l₂, hsplit, rfl,
            by simpa using hp, ?_, ?_⟩
          · have hq' := hq
            simp [unitMatches] at hq'
            exact hq'
          · intro v hv hav hcon
            have hpv : (v.status == "available") = true := by simpa using hav
            have hv' := hfirst v hv hpv
            simp [unitMatches] at hv'
            rcases hcon with h₁ | h₂
            · exact hv'.1 h₁
            · exact hv'.2 h₂
    · rw [if_neg hnew] at hr
      exact absurd hr (by simp)
  · intro hnot
    unfold assignUnitAction
    rw [if_neg (by simpa using hnot)]
  · rfl

/-- Witness for C7: a concrete assigned incident stays in the active
list, the assign action skips a non-matching available unit and a busy
matching one, a resolved incident gets no assign button, and the concrete
resolve request equals the generic status write. -/
theorem c7_dispatcher_console_witness :
    (⟨"i2", "police", "assigned", "high"⟩ : ClientIncident) ∈
      dispatcherActiveIncidents [⟨"i2", "police", "assigned", "high"⟩] ∧
    (⟨"i1", "police", "new", "high"⟩ : ClientIncident).status = "new" ∧
    assignUnitAction
        [⟨"u0", "fire", "available"⟩, ⟨"u1", "police", "busy"⟩,
         ⟨"u2", "police", "available"⟩]
        ⟨"i1", "police", "new", "high"⟩ "d1"
      = some ⟨"i1", "u2", "d1"⟩ ∧
    assignUnitAction [] ⟨"i3", "police", "resolved", "low"⟩ "d1" = none ∧
    (patchIncidentRoute ⟨[], [], [], []⟩ "i9"
        (serviceDashboardStatusBody "resolved") 4 "g1").2
      = FirebaseStorage.updateIncidentStatus ⟨[], [], [], []⟩ "i9"
          (Json.str "resolved") [] 4 "g1" := by
  have t₁ := c7_dispatcher_console [⟨"i2", "police", "assigned", "high"⟩]
    ⟨"i3", "police", "resolved", "low"⟩ ⟨"i2", "police", "assigned", "high"⟩
    [] "d1" ⟨"x", "y", "z"⟩ ⟨[], [], [], []⟩ "i9" 4 "g1"
  have t₂ := c7_dispatcher_console []
    ⟨"i1", "police", "new", "high"⟩ ⟨"i1", "police", "new", "high"⟩
    [⟨"u0", "fire", "available"⟩, ⟨"u1", "police", "busy"⟩,
     ⟨"u2", "police", "available"⟩] "d1" ⟨"i1", "u2", "d1"⟩
    ⟨[], [], [], []⟩ "i9" 4 "g1"
  refine ⟨?_, ?_, rfl, ?_, ?_⟩
  · exact t₁.1.mpr ⟨List.mem_singleton.mpr rfl, by decide, by decide⟩
  · exact (t₂.2.1 rfl).1
  · exact t₁.2.2.1 (by decide)
  · exact t₁.2.2.2

/-- C8: Creation defaults are fixed regardless of input: every incident
created through `MemStorage.createIncident` has status `"new"`, no
assigned unit, no assigned dispatcher and an empty media list, for every
insert payload (including one smuggling those fields), and the new record
is appended to the store. -/
theorem c8_creation_defaults (st : MemState) (d : MemInsertIncident)
    (newId : String) (now : Nat) :
    (MemStorage.createIncident st d newId now).1.status = "new" ∧
    (MemStorage.createIncident st d newId now).1.assignedUnitId = none ∧
    (MemStorage.createIncident st d newId now).1.assignedDispatcherId = none ∧
    (MemStorage.createIncident st d newId now).1.mediaUrls = [] ∧
    (MemStorage.createIncident st d newId now).2.incidents =
      st.incidents ++ [(newId, (MemStorage.createIncident st d newId now).1)] :=
  ⟨rfl, rfl, rfl, rfl, rfl⟩

/-- C9: Updates on a missing id are atomic no-ops, per operation: each of
`updateUser`, `updateIncident` and `updateEmergencyUnit` returns
`undefined` and leaves the entire store unchanged whenever the id is
absent from that operation's own map, regardless of what the other maps
contain. -/
theorem c9_missing_id_noop (st : MemState) (id : String)
    (pu : MemUserPatch) (pinc : MemIncidentPatch) (pe : MemEmergencyUnitPatch)
    (now : Nat) :
    (assocGet st.users id = none →
      MemStorage.updateUser st id pu = (none, st)) ∧
    (assocGet st.incidents id = none →
      MemStorage.updateIncident st id pinc now = (none, st)) ∧
    (assocGet st.emergencyUnits id = none →
      MemStorage.updateEmergencyUnit st id pe = (none, st)) := by
  refine ⟨?_, ?_, ?_⟩
  · intro hu
    unfold MemStorage.updateUser
    rw [hu]
  · intro hi
    unfold MemStorage.updateIncident
    rw [hi]
  · intro he
    unfold MemStorage.updateEmergencyUnit
    rw [he]

/-- Witness for C9 on a store holding one user `u7` and one incident
`x1`: updating the user `x1` (an id present in the incidents map but not
in the users map) is a no-op, as is updating the incident `u7` and the
unit `x1`. -/
theorem c9_missing_id_noop_witness :
    MemStorage.updateUser
        ⟨[("u7", ⟨"u7", "+233200000002", "citizen", "Kofi", true, 1⟩)],
         [("x1", ⟨"x1", "u7", "police", none, ⟨5, 0, "Accra", none⟩, "new",
                  none, none, [], 1, 1⟩)], [], []⟩
        "x1" {}
      = (none,
         ⟨[("u7", ⟨"u7", "+233200000002", "citizen", "Kofi", true, 1⟩)],
          [("x1", ⟨"x1", "u7", "police", none, ⟨5, 0, "Accra", none⟩, "new",
                   none, none, [], 1, 1⟩)], [], []⟩) ∧
    MemStorage.updateIncident
        ⟨[("u7", ⟨"u7", "+233200000002", "citizen", "Kofi", true, 1⟩)],
         [("x1", ⟨"x1", "u7", "police", none, ⟨5, 0, "Accra", none⟩, "new",
                  none, none, [], 1, 1⟩)], [], []⟩
        "u7" {} 3
      = (none,
         ⟨[("u7", ⟨"u7", "+233200000002", "citizen", "Kofi", true, 1⟩)],
          [("x1", ⟨"x1", "u7", "police", none, ⟨5, 0, "Accra", none⟩, "new",
                   none, none, [], 1, 1⟩)], [], []⟩) ∧
    MemStorage.updateEmergencyUnit
        ⟨[("u7", ⟨"u7", "+233200000002", "citizen", "Kofi", true, 1⟩)],
         [("x1", ⟨"x1", "u7", "police", none, ⟨5, 0, "Accra", none⟩, "new",
                  none, none, [], 1, 1⟩)], [], []⟩
        "x1" {}
      = (none,
         ⟨[("u7", ⟨"u7", "+233200000002", "citizen", "Kofi", true, 1⟩)],
          [("x1", ⟨"x1", "u7", "police", none, ⟨5, 0, "Accra", none⟩, "new",
                   none, none, [], 1, 1⟩)], [], []⟩) := by
  refine ⟨?_, ?_, ?_⟩
  · exact (c9_missing_id_noop
      ⟨[("u7", ⟨"u7", "+233200000002", "citizen", "Kofi", true, 1⟩)],
       [("x1", ⟨"x1", "u7", "police", none, ⟨5, 0, "Accra", none⟩, "new",
                none, none, [], 1, 1⟩)], [], []⟩
      "x1" {} {} {} 3).1 rfl
  · exact (c9_missing_id_noop
      ⟨[("u7", ⟨"u7", "+233200000002", "citizen", "Kofi", true, 1⟩)],
       [("x1", ⟨"x1", "u7", "police", none, ⟨5, 0, "Accra", none⟩, "new",
                none, none, [], 1, 1⟩)], [], []⟩
      "u7" {} {} {} 3).2.1 rfl
  · exact (c9_missing_id_noop
      ⟨[("u7", ⟨"u7", "+233200000002", "citizen", "Kofi", true, 1⟩)],
       [("x1", ⟨"x1", "u7", "police", none, ⟨5, 0, "Accra", none⟩, "new",
                none, none, [], 1, 1⟩)], [], []⟩
      "x1" {} {} {} 3).2.2 rfl

/-- C10: Frame property of incident updates: on an existing incident,
`MemStorage.updateIncident` leaves every field not named in the update
unchanged, except `updatedAt`, which is refreshed to the update time even
for an empty update object; all other incidents are untouched. -/
theorem c10_update_incident_frame (st : MemState) (id : String) (i : MemIncident)
    (p : MemIncidentPatch) (now : Nat)
    (h : MemStorage.getIncident st id = some i) :
    ∃ upd,
      (MemStorage.updateIncident st id p now).1 = some upd ∧
      upd.updatedAt = now ∧
      (p.id = none → upd.id = i.id) ∧
      (p.reporterId = none → upd.reporterId = i.reporterId) ∧
      (p.type = none → upd.type = i.type) ∧
      (p.description = none → upd.description = i.description) ∧
      (p.location = none → upd.location = i.location) ∧
      (p.status = none → upd.status = i.status) ∧
      (p.assignedUnitId = none → upd.assignedUnitId = i.assignedUnitId) ∧
      (p.assignedDispatcherId = none → upd.assignedDispatcherId = i.assignedDispatcherId) ∧
      (p.mediaUrls = none → upd.mediaUrls = i.mediaUrls) ∧
      (p.createdAt = none → upd.createdAt = i.createdAt) ∧
      MemStorage.getIncident (MemStorage.updateIncident st id p now).2 id = some upd ∧
      (∀ j, j ≠ id →
        MemStorage.getIncident (MemStorage.updateIncident st id p now).2 j =
          MemStorage.getIncident st j) := by
  have h0 : assocGet st.incidents id = some i := h
  refine ⟨{ MemStorage.applyIncidentPatch i p with updatedAt := now }, ?_⟩
  unfold MemStorage.updateIncident
  rw [h0]
  refine ⟨rfl, rfl, ?_, ?_, ?_, ?_, ?_, ?_, ?_, ?_, ?_, ?_, ?_, ?_⟩
  · intro hp; simp [MemStorage.applyIncidentPatch, hp]
  · intro hp; simp [MemStorage.applyIncidentPatch, hp]
  · intro hp; simp [MemStorage.applyIncidentPatch, hp]
  · intro hp; simp [MemStorage.applyIncidentPatch, hp]
  · intro hp; simp [MemStorage.applyIncidentPatch, hp]
  · intro hp; simp [MemStorage.applyIncidentPatch, hp]
  · intro hp; simp [MemStorage.applyIncidentPatch, hp]
  · intro hp; simp [MemStorage.applyIncidentPatch, hp]
  · intro hp; simp [MemStorage.applyIncidentPatch, hp]
  · intro hp; simp [MemStorage.applyIncidentPatch, hp]
  · exact assocGet_replace_self (by simp [h0]) _
  · intro j hj
    exact assocGet_replace_ne st.incidents id _ hj

/-- Witness for C10: an empty patch on a one-incident store refreshes
only `updatedAt` and preserves the other incident. -/
theorem c10_update_incident_frame_witness :
    ∃ upd,
      (MemStorage.updateIncident
        ⟨[], [("i1", { id := "i1", reporterId := "u1", type := "police",
                       description := none,
                       location := { latitude := 5, longitude := 0,
                                     address := "Accra", ghanaPostGPS := none },
                       status := "new", assignedUnitId := none,
                       assignedDispatcherId := none, mediaUrls := [],
                       createdAt := 1, updatedAt := 1 })], [], []⟩
        "i1" {} 9).1 = some upd ∧
      upd.updatedAt = 9 ∧ upd.status = "new" ∧ upd.createdAt = 1 := by
  obtain ⟨upd, h1, h2, _, _, _, _, _, hst, _, _, _, hcr, _, _⟩ :=
    c10_update_incident_frame
      ⟨[], [("i1", { id := "i1", reporterId := "u1", type := "police",
                     description := none,
                     location := { latitude := 5, longitude := 0,
                                   address := "Accra", ghanaPostGPS := none },
                     status := "new", assignedUnitId := none,
                     assignedDispatcherId := none, mediaUrls := [],
                     createdAt := 1, updatedAt := 1 })], [], []⟩
      "i1"
      { id := "i1", reporterId := "u1", type := "police",
        description := none,
        location := { latitude := 5, longitude := 0,
                      address := "Accra", ghanaPostGPS := none },
        status := "new", assignedUnitId := none,
        assignedDispatcherId := none, mediaUrls := [],
        createdAt := 1, updatedAt := 1 }
      {} 9 rfl
  exact ⟨upd, h1, h2, hst rfl, hcr rfl⟩

end SOS
